import Mathlib

/-!
Shallow embedding of internal_displacement/pipeline.py: the CSV url-column
extraction (urls_from_csv), the SQL article store (SQLArticleInterface) with
its Articles and Labels tables, the fetch-and-insert loop of process_urls,
the label ingestion of process_labeled_data, the CSV export to_csv, and the
training-data accessor get_training_data.

Tables are modelled as lists of typed rows in storage (insertion) order.
The sqlite schema created in SQLArticleInterface.__init__ declares NO
uniqueness constraint on any column, so an INSERT into Articles always
succeeds and is modelled as an append. Python-level failures (TypeError,
IndexError, ValueError, sqlite3.OperationalError) are modelled by the
PyError error type through Except.
-/

namespace Pipeline

/-- Python errors that the embedded fragments of pipeline.py can raise.
Each valueError constructor stands for one distinct raise site message of
urls_from_csv; operationalError stands for sqlite3.OperationalError raised
by SELECT on an unknown table. -/
inductive PyError where
  /-- the ValueError of the final else of urls_from_csv: can not find any URLs -/
  | valueErrorNoURLs
  /-- the ValueError for a column name with no header present -/
  | valueErrorColumnNameNoHeader
  /-- the ValueError for a column name that is not in the dataset header -/
  | valueErrorBadColumnName
  /-- the ValueError for a column index not in range of the dataset -/
  | valueErrorIndexOutOfRange
  /-- TypeError, e.g. indexing a list with a list -/
  | typeError
  /-- IndexError from an out-of-range list index -/
  | indexError
  /-- sqlite3.OperationalError: no such table -/
  | operationalError
deriving DecidableEq, Repr

/-- The column argument of urls_from_csv: Python None, an int, or a str. -/
inductive Column where
  | none
  | idx (i : Int)
  | name (s : String)
deriving DecidableEq, Repr

/-- Python truthiness of the column argument, as tested by the line
`if column:` in urls_from_csv: None and the int 0 and the empty string are
falsy, everything else is truthy. -/
def Column.truthy : Column → Bool
  | .none => false
  | .idx i => i != 0
  | .name s => s != ""

/-- Python list indexing line[i] for an int i: negative indices count from
the end, and an index out of range raises IndexError. -/
def pyIndex (line : List String) (i : Int) : Except PyError String :=
  let j : Int := if i < 0 then i + (line.length : Int) else i
  if j < 0 then .error .indexError
  else
    match line.get? j.toNat with
    | Option.some v => .ok v
    | Option.none => .error .indexError

/-- Python list indexing line[ix] where ix is itself a list: list indices
must be integers or slices, so this always raises TypeError. -/
def pyListIndex (line : List String) (ix : List Nat) : Except PyError String :=
  .error .typeError

/-- Python substring test, pat in s. -/
def strContains (s pat : String) : Bool :=
  s.toList.tails.any (fun t => pat.toList.isPrefixOf t)

/-- Embedding of urls_from_csv(dataset, column, header) from pipeline.py.
The branch structure mirrors the if/elif chain of the source exactly:
the outer test is Python truthiness of column, then the int branch checks
column < len(dataset[0]), the str branch checks header == 1 and membership
in dataset[0], and the remaining elifs raise the matching ValueErrors.
When column is falsy but not None (the int 0 or the empty string) the
code falls through to the final else and raises. When column is None the
code reads dataset[header] (NOT the header row dataset[0]), collects ALL
indices whose cell contains http into a Python list, and then evaluates
line[index] with that list, which raises TypeError. -/
def urls_from_csv (dataset : List (List String)) (column : Column) (header : Nat) :
    Except PyError (List String) :=
  if column.truthy then
    match column with
    | .idx i =>
      match dataset.get? 0 with
      | Option.none => .error .indexError
      | Option.some row0 =>
        if i < (row0.length : Int) then
          (dataset.drop header).mapM (fun line => pyIndex line i)
        else
          .error .valueErrorIndexOutOfRange
    | .name s =>
      if header = 1 then
        match dataset.get? 0 with
        | Option.none => .error .indexError
        | Option.some row0 =>
          if s ∈ row0 then
            (dataset.drop header).mapM (fun line => pyIndex line (row0.indexOf s : Int))
          else
            .error .valueErrorBadColumnName
      else if header = 0 then
        .error .valueErrorColumnNameNoHeader
      else
        match dataset.get? 0 with
        | Option.none => .error .indexError
        | Option.some row0 =>
          if s ∈ row0 then .error .valueErrorIndexOutOfRange
          else .error .valueErrorBadColumnName
    | .none => .error .valueErrorNoURLs
  else
    match column with
    | .none =>
      match dataset.get? header with
      | Option.none => .error .indexError
      | Option.some firstRow =>
        let index := (firstRow.enum.filter (fun p => strContains p.2 "http")).map Prod.fst
        (dataset.drop header).mapM (fun line => pyListIndex line index)
    | _ => .error .valueErrorNoURLs

/-- Modelled from the spec: the Article record produced by the external
scrape collaborator (internal_displacement/article.py is not part of the
source under inspection). Fields follow the spec data model: title, url,
authors as an ordered sequence of strings, publish_date as a normalized
string representation, domain, content with a sentinel value signalling
retrieval failure, content_type and language. -/
structure Article where
  title : String
  url : String
  authors : List String
  publish_date : String
  domain : String
  content : String
  content_type : String
  language : String
deriving DecidableEq, Repr

/-- Modelled from the spec: Article.get_pub_date_string returns the
normalized string representation of the publish date, which is the
publish_date field of the model. -/
def Article.pubDateString (a : Article) : String :=
  a.publish_date

/-- A row of the Articles table, with the columns of the CREATE TABLE in
SQLArticleInterface.__init__: title, url, author, publish_date, domain,
content, content_type, language. The author column stores the
comma-joined authors. -/
structure ArticleRow where
  title : String
  url : String
  author : String
  publish_date : String
  domain : String
  content : String
  content_type : String
  language : String
deriving DecidableEq, Repr

/-- A row of the Labels table: url and category. -/
structure LabelRow where
  url : String
  category : String
deriving DecidableEq, Repr

/-- The row that insert_article binds into INSERT INTO Articles VALUES:
title, url, the comma-join of authors, get_pub_date_string, domain,
content, content_type, language. -/
def articleRow (a : Article) : ArticleRow :=
  ⟨a.title, a.url, String.intercalate "," a.authors, a.pubDateString,
   a.domain, a.content, a.content_type, a.language⟩

/-- Embedding of SQLArticleInterface.insert_article: returns the Articles
table after the call. When article.content is the failure sentinel
retrieval_failed the method returns None before touching the table.
Otherwise the INSERT always succeeds and appends a row, because the
CREATE TABLE statement declares no uniqueness constraint on url (or any
column): the except sqlite3.IntegrityError branch is unreachable. -/
def insert_article (article : Article) (table : List ArticleRow) : List ArticleRow :=
  if article.content = "retrieval_failed" then table
  else table ++ [articleRow article]

/-- Outcome of one call of the scrape collaborator: a parsed Article, the
Python value None, or a raised exception. -/
inductive ScrapeResult where
  | ok (a : Article)
  | none
  | err
deriving DecidableEq, Repr

/-- Embedding of the result-collection loop of process_urls: for each
future, the try block reads f.result(); a raised exception (.err) is
caught by the except clause and the loop continues; a None article is
skipped by the continue; otherwise insert_article runs. Completion order
of as_completed is modelled as submission order; the properties proved
about this loop do not depend on the order. -/
def fetchLoop (scrape : String → ScrapeResult) : List String → List ArticleRow → List ArticleRow
  | [], table => table
  | u :: us, table =>
    match scrape u with
    | .ok a => fetchLoop scrape us (insert_article a table)
    | .none => fetchLoop scrape us table
    | .err => fetchLoop scrape us table

/-- The articles for which the scrape collaborator returns a parsed
Article (neither None nor a raised exception), in submission order. -/
def okArticles (scrape : String → ScrapeResult) (urls : List String) : List Article :=
  urls.filterMap (fun u =>
    match scrape u with
    | .ok a => Option.some a
    | _ => Option.none)

/-- Embedding of SQLArticleInterface.process_urls: the dataset stands for
csv_read(url_csv); urls_from_csv runs with the given column and the
default header 1; existing urls are read from the Articles table and
filtered out; one scrape task is submitted per remaining url. Returns the
list of urls actually submitted to the scrape collaborator together with
the Articles table after the collection loop. -/
def process_urls (scrape : String → ScrapeResult) (dataset : List (List String))
    (url_column : Column) (table : List ArticleRow) :
    Except PyError (List String × List ArticleRow) :=
  match urls_from_csv dataset url_column 1 with
  | .error e => .error e
  | .ok urls =>
    let existing_urls := table.map ArticleRow.url
    let submitted := urls.filter (fun u => decide (u ∉ existing_urls))
    .ok (submitted, fetchLoop scrape submitted table)

/-- Embedding of SQLArticleInterface.process_labeled_data: csvUrls stands
for list(df[url_column_name].values) and csvLabels for
list(df[label_column_name].values), the two column value lists of the
CSV in row order. The source filters the url list against the urls
already in the Labels table, then zips the FILTERED url list with the
UNfiltered label list (Python zip truncates to the shorter list), and
executemany appends each resulting pair to the Labels table. -/
def process_labeled_data (csvUrls csvLabels : List String) (labelsTable : List LabelRow) :
    List LabelRow :=
  let existing_urls := labelsTable.map LabelRow.url
  let urls := csvUrls.filter (fun u => decide (u ∉ existing_urls))
  let values := urls.zip csvLabels
  labelsTable ++ values.map (fun p => ⟨p.1, p.2⟩)

/-- The database state of one SQLArticleInterface: the Articles table and
the Labels table, each in storage (insertion) order. -/
structure DB where
  articles : List ArticleRow
  labels : List LabelRow
deriving DecidableEq, Repr

/-- Embedding of the SELECT content,category FROM Articles INNER JOIN
Labels ON Articles.url = Labels.url of get_training_data: for each
Articles row, each Labels row with an equal url contributes the pair
(content, category). -/
def trainingCases (db : DB) : List (String × String) :=
  (db.articles.map (fun a =>
    (db.labels.filter (fun l => l.url == a.url)).map (fun l => (a.content, l.category)))).flatten

/-- Embedding of SQLArticleInterface.get_training_data: labels is the list
of the second components (category) of the joined rows, features the list
of the first components (content), and the method returns the pair
(labels, features) in that order. -/
def get_training_data (db : DB) : List String × List String :=
  let training_cases := trainingCases db
  let labels := training_cases.map (fun r => r.2)
  let features := training_cases.map (fun r => r.1)
  (labels, features)

/-- Header row of the Articles table export: the column names of the
CREATE TABLE, read from cursor.description. -/
def articlesHeader : List String :=
  ["title", "url", "author", "publish_date", "domain", "content", "content_type", "language"]

/-- Header row of the Labels table export. -/
def labelsHeader : List String :=
  ["url", "category"]

/-- The CSV cells of one Articles row, in column order. -/
def articleCells (r : ArticleRow) : List String :=
  [r.title, r.url, r.author, r.publish_date, r.domain, r.content, r.content_type, r.language]

/-- The CSV cells of one Labels row. -/
def labelCells (r : LabelRow) : List String :=
  [r.url, r.category]

/-- Embedding of SQLArticleInterface.to_csv: the result is the list of
rows written to the output file. The two tables of the schema are
Articles and Labels; for any other name the SELECT raises
sqlite3.OperationalError (no such table), which the except ValueError
clause does not catch, so the error propagates to the caller and nothing
is written. For a known table the writer emits the header row from
cursor.description followed by every stored row in storage order. -/
def to_csv (db : DB) (table : String) : Except PyError (List (List String)) :=
  if table = "Articles" then .ok (articlesHeader :: db.articles.map articleCells)
  else if table = "Labels" then .ok (labelsHeader :: db.labels.map labelCells)
  else .error .operationalError

/-- A scrape outcome contributes nothing to the Articles table: either it
is not a parsed Article, or the parsed Article carries the failure
sentinel as content so that insert_article is a no-op. -/
def inert (scrape : String → ScrapeResult) (u : String) : Prop :=
  match scrape u with
  | .ok a => a.content = "retrieval_failed"
  | _ => True

/-- A concrete article whose content is the failure sentinel. -/
def sentinelArticle : Article :=
  ⟨"t", "http://a.com", [], "", "", "retrieval_failed", "html", "en"⟩

/-- A concrete non-sentinel article with url http://a.com. -/
def dupArticle : Article :=
  ⟨"t", "http://a.com", [], "", "", "hello", "html", "en"⟩

/-- A scrape collaborator that returns, for every url, a parsed article
carrying that url and non-sentinel content. -/
def scrapeW (u : String) : ScrapeResult :=
  .ok ⟨"t", u, [], "", "", "body", "html", "en"⟩

/-- A scrape collaborator that returns, for the url http://a.com, an
article whose url field is the DIFFERENT url http://b.com. -/
def scrapeMismatch (u : String) : ScrapeResult :=
  if u = "http://a.com" then .ok ⟨"t", "http://b.com", [], "", "", "body", "html", "en"⟩
  else .none

/-- The Articles row produced by inserting the mismatch article. -/
def mismatchRow : ArticleRow :=
  ⟨"t", "http://b.com", "", "", "", "body", "html", "en"⟩

/-- The Articles row produced by scrapeW on http://a.com. -/
def rowW : ArticleRow :=
  ⟨"t", "http://a.com", "", "", "", "body", "html", "en"⟩

/-- An Articles row already storing url http://a.com. -/
def rowA : ArticleRow :=
  ⟨"t", "http://a.com", "", "", "", "body", "html", "en"⟩

/-- A one-url CSV dataset: header row [URL], one data row [http://a.com]. -/
def dsA : List (List String) :=
  [["URL"], ["http://a.com"]]

/-- Five urls for the partial-failure scenario. -/
def urls5 : List String :=
  ["http://u1.com", "http://u2.com", "http://u3.com", "http://u4.com", "http://u5.com"]

/-- A scrape collaborator that raises for http://u3.com and returns a
parsed article for every other url. -/
def scrape5 (u : String) : ScrapeResult :=
  if u = "http://u3.com" then .err
  else .ok ⟨"t", u, [], "", "", "body", "html", "en"⟩

/-- The Articles row produced by scrape5 on a non-failing url. -/
def row5 (u : String) : ArticleRow :=
  ⟨"t", u, "", "", "", "body", "html", "en"⟩

/-- The database of the training-data scenario: one Articles row with
content hello and url http://a.com, one Labels row with that url and
category X. -/
def scenarioDB : DB :=
  ⟨[⟨"t", "http://a.com", "", "", "", "hello", "html", "en"⟩], [⟨"http://a.com", "X"⟩]⟩

/-- Inserting an article preserves every url already stored in the table. -/
theorem mem_urls_insert_article (a : Article) (t : List ArticleRow) (u : String)
    (h : u ∈ t.map ArticleRow.url) : u ∈ (insert_article a t).map ArticleRow.url := by
  unfold insert_article
  split
  · exact h
  · simp only [List.map_append, List.mem_append]
    exact Or.inl h

/-- The fetch-and-insert loop preserves every url already stored. -/
theorem mem_urls_fetchLoop (scrape : String → ScrapeResult) (l : List String)
    (t : List ArticleRow) (u : String) (h : u ∈ t.map ArticleRow.url) :
    u ∈ (fetchLoop scrape l t).map ArticleRow.url := by
  induction l generalizing t with
  | nil => exact h
  | cons x xs ih =>
    cases hx : scrape x with
    | ok a =>
      simp only [fetchLoop, hx]
      exact ih _ (mem_urls_insert_article a t u h)
    | none =>
      simp only [fetchLoop, hx]
      exact ih _ h
    | err =>
      simp only [fetchLoop, hx]
      exact ih _ h

/-- If some submitted url scrapes to a non-sentinel article, the url of
that article is stored after the fetch-and-insert loop. -/
theorem url_mem_fetchLoop_of_ok (scrape : String → ScrapeResult) (l : List String)
    (t : List ArticleRow) (u : String) (a : Article) (hu : u ∈ l)
    (hs : scrape u = .ok a) (hc : a.content ≠ "retrieval_failed") :
    a.url ∈ (fetchLoop scrape l t).map ArticleRow.url := by
  induction l generalizing t with
  | nil => cases hu
  | cons x xs ih =>
    rcases List.mem_cons.mp hu with hux | hu2
    · subst hux
      simp only [fetchLoop, hs]
      have hmem : a.url ∈ (insert_article a t).map ArticleRow.url := by
        unfold insert_article
        rw [if_neg hc]
        simp [articleRow]
      exact mem_urls_fetchLoop scrape xs _ _ hmem
    · cases hx : scrape x with
      | ok b =>
        simp only [fetchLoop, hx]
        exact ih _ hu2
      | none =>
        simp only [fetchLoop, hx]
        exact ih _ hu2
      | err =>
        simp only [fetchLoop, hx]
        exact ih _ hu2

/-- When every submitted url is inert (a raised exception, a None result,
or a sentinel article) the fetch-and-insert loop leaves the table
unchanged. -/
theorem fetchLoop_eq_of_inert (scrape : String → ScrapeResult) (l : List String)
    (t : List ArticleRow) (h : ∀ u ∈ l, inert scrape u) :
    fetchLoop scrape l t = t := by
  induction l generalizing t with
  | nil => rfl
  | cons x xs ih =>
    have hx := h x (List.mem_cons_self x xs)
    have hrest : ∀ u ∈ xs, inert scrape u := fun u hu => h u (List.mem_cons_of_mem x hu)
    cases hsx : scrape x with
    | ok a =>
      have hc : a.content = "retrieval_failed" := by
        unfold inert at hx
        rw [hsx] at hx
        exact hx
      have hins : insert_article a t = t := by
        unfold insert_article
        rw [if_pos hc]
      simp only [fetchLoop, hsx, hins]
      exact ih _ hrest
    | none =>
      simp only [fetchLoop, hsx]
      exact ih _ hrest
    | err =>
      simp only [fetchLoop, hsx]
      exact ih _ hrest

/-- Unfolding lemma for process_urls when the url extraction succeeds. -/
theorem process_urls_eq (scrape : String → ScrapeResult) (dataset : List (List String))
    (col : Column) (table : List ArticleRow) (urls : List String)
    (h : urls_from_csv dataset col 1 = .ok urls) :
    process_urls scrape dataset col table =
      .ok (urls.filter (fun u => decide (u ∉ table.map ArticleRow.url)),
        fetchLoop scrape (urls.filter (fun u => decide (u ∉ table.map ArticleRow.url))) table) := by
  unfold process_urls
  rw [h]

/-- Inversion lemma: a successful process_urls run determines the list of
submitted urls (the extracted urls not already stored) and the final
table (the fetch-and-insert loop over the submitted urls). -/
theorem process_urls_inv (scrape : String → ScrapeResult) (dataset : List (List String))
    (col : Column) (table : List ArticleRow) (c : List String) (t2 : List ArticleRow)
    (h : process_urls scrape dataset col table = .ok (c, t2)) :
    ∃ urls, urls_from_csv dataset col 1 = .ok urls ∧
      c = urls.filter (fun u => decide (u ∉ table.map ArticleRow.url)) ∧
      t2 = fetchLoop scrape c table := by
  cases hcsv : urls_from_csv dataset col 1 with
  | error e =>
    unfold process_urls at h
    rw [hcsv] at h
    exact absurd h (by simp)
  | ok urls =>
    rw [process_urls_eq scrape dataset col table urls hcsv] at h
    simp only [Except.ok.injEq, Prod.mk.injEq] at h
    obtain ⟨hc, ht⟩ := h
    exact ⟨urls, rfl, hc.symm, by rw [← ht, hc]⟩

/-- Case lemma for okArticles on a url with a parsed article. -/
theorem okArticles_cons_ok (scrape : String → ScrapeResult) (u : String) (us : List String)
    (a : Article) (h : scrape u = .ok a) :
    okArticles scrape (u :: us) = a :: okArticles scrape us := by
  simp [okArticles, List.filterMap_cons, h]

/-- Case lemma for okArticles on a url with a None result. -/
theorem okArticles_cons_none (scrape : String → ScrapeResult) (u : String) (us : List String)
    (h : scrape u = .none) :
    okArticles scrape (u :: us) = okArticles scrape us := by
  simp [okArticles, List.filterMap_cons, h]

/-- Case lemma for okArticles on a url with a raised exception. -/
theorem okArticles_cons_err (scrape : String → ScrapeResult) (u : String) (us : List String)
    (h : scrape u = .err) :
    okArticles scrape (u :: us) = okArticles scrape us := by
  simp [okArticles, List.filterMap_cons, h]

/-- C1: the label ingestion process_labeled_data does pair each url of the
empty-prior-state scenario with the category of its own CSV row, BUT on a
prior Labels state already containing http://a.com it inserts the pair
(http://b.com, X), taking the category of a different CSV row, because
the filtered url list is zipped with the unfiltered label list. The claim
that every inserted url is paired with the category of its own CSV row is
therefore false on the code. -/
theorem C1_code_eval :
    process_labeled_data ["http://a.com", "http://b.com"] ["X", "Y"] [] =
      [⟨"http://a.com", "X"⟩, ⟨"http://b.com", "Y"⟩]
  ∧ process_labeled_data ["http://a.com", "http://b.com"] ["X", "Y"] [⟨"http://a.com", "Z"⟩] =
      [⟨"http://a.com", "Z"⟩, ⟨"http://b.com", "X"⟩]
  ∧ process_labeled_data ["http://a.com", "http://b.com"] ["X", "Y"] [⟨"http://a.com", "Z"⟩] ≠
      [⟨"http://a.com", "Z"⟩, ⟨"http://b.com", "Y"⟩] :=
  ⟨rfl, rfl, by decide⟩

/-- C2 counterexample: on the scenario store with one article of content
hello and one label X for the same url, get_training_data does NOT return
the pair of sequences (contents, categories) = ([hello], [X]). -/
theorem C2_counterexample : get_training_data scenarioDB ≠ (["hello"], ["X"]) := by
  decide

/-- C2 amended: get_training_data returns the two parallel sequences in
the order (categories, contents), both drawn from the inner join of
Articles and Labels on url; on the scenario store it returns ([X], [hello]). -/
theorem C2_amended_training_data :
    (∀ db : DB,
      get_training_data db =
        ((trainingCases db).map (fun r => r.2), (trainingCases db).map (fun r => r.1))
    ∧ (get_training_data db).1.length = (get_training_data db).2.length)
  ∧ get_training_data scenarioDB = (["X"], ["hello"]) := by
  refine ⟨fun db => ⟨rfl, ?_⟩, by decide⟩
  simp [get_training_data]

/-- C3: for every article whose content equals the failure sentinel,
insert_article leaves the Articles table unchanged, in particular its row
count, so no persisted row ever has sentinel content. -/
theorem C3_sentinel_noop (a : Article) (t : List ArticleRow)
    (h : a.content = "retrieval_failed") :
    insert_article a t = t ∧ (insert_article a t).length = t.length := by
  have he : insert_article a t = t := by
    unfold insert_article
    rw [if_pos h]
  exact ⟨he, by rw [he]⟩

/-- C3 witness: a concrete sentinel article inserted into the empty table. -/
theorem C3_sentinel_noop_witness :
    insert_article sentinelArticle [] = []
  ∧ (insert_article sentinelArticle []).length = ([] : List ArticleRow).length :=
  C3_sentinel_noop sentinelArticle [] rfl

/-- C4: whenever the Articles table already contains the url U, a
successful process_urls run never submits U to the scrape collaborator:
U is not among the dispatched urls. -/
theorem C4_dedup_before_fetch (scrape : String → ScrapeResult)
    (dataset : List (List String)) (col : Column) (table : List ArticleRow)
    (U : String) (calls : List String) (t2 : List ArticleRow)
    (hU : U ∈ table.map ArticleRow.url)
    (hrun : process_urls scrape dataset col table = .ok (calls, t2)) :
    U ∉ calls := by
  intro hUc
  obtain ⟨urls, hcsv, hc, -⟩ := process_urls_inv scrape dataset col table calls t2 hrun
  rw [hc] at hUc
  exact (of_decide_eq_true (List.mem_filter.mp hUc).2) hU

/-- C4 witness: with http://a.com already stored, the run on a CSV
containing that url dispatches no scrape call at all. -/
theorem C4_dedup_before_fetch_witness : "http://a.com" ∉ ([] : List String) :=
  C4_dedup_before_fetch scrapeW dsA (Column.name "URL") [rowA] "http://a.com" [] [rowA]
    (by decide) rfl

/-- C5 counterexample: with a deterministic scrape collaborator that
returns, for the fetched url http://a.com, an article carrying the
different url http://b.com, one run of process_urls on the one-url CSV
from the empty table stores 1 row, and a second identical run stores a
second row: the final row counts of one run and two runs differ. -/
theorem C5_counterexample :
    process_urls scrapeMismatch dsA (Column.name "URL") [] =
      .ok (["http://a.com"], [mismatchRow])
  ∧ process_urls scrapeMismatch dsA (Column.name "URL") [mismatchRow] =
      .ok (["http://a.com"], [mismatchRow, mismatchRow])
  ∧ ([mismatchRow, mismatchRow] : List ArticleRow).length ≠
      ([mismatchRow] : List ArticleRow).length :=
  ⟨rfl, rfl, by decide⟩

/-- C5 amended: for every deterministic scrape collaborator whose parsed
articles carry the url they were fetched from, running process_urls twice
on the same CSV against the same store ends in the same Articles table,
and in particular the same row count, as running it once. -/
theorem C5_amended_idempotent (scrape : String → ScrapeResult)
    (dataset : List (List String)) (col : Column) (t : List ArticleRow)
    (c1 : List String) (t1 : List ArticleRow) (c2 : List String) (t2 : List ArticleRow)
    (hurl : ∀ u a, scrape u = .ok a → a.url = u)
    (h1 : process_urls scrape dataset col t = .ok (c1, t1))
    (h2 : process_urls scrape dataset col t1 = .ok (c2, t2)) :
    t2 = t1 ∧ t2.length = t1.length := by
  obtain ⟨urls, hcsv, hc1, ht1⟩ := process_urls_inv scrape dataset col t c1 t1 h1
  obtain ⟨urls2, hcsv2, hc2, ht2⟩ := process_urls_inv scrape dataset col t1 c2 t2 h2
  rw [hcsv] at hcsv2
  injection hcsv2 with hu2
  subst hu2
  have hmain : fetchLoop scrape c2 t1 = t1 := by
    apply fetchLoop_eq_of_inert
    intro u hu
    rw [hc2] at hu
    obtain ⟨huE, hdec⟩ := List.mem_filter.mp hu
    have hnot1 : u ∉ t1.map ArticleRow.url := of_decide_eq_true hdec
    unfold inert
    cases hsu : scrape u with
    | ok a =>
      by_contra hcon
      have hau : a.url = u := hurl u a hsu
      have hnt : u ∉ t.map ArticleRow.url := by
        intro hm
        exact hnot1 (by rw [ht1]; exact mem_urls_fetchLoop scrape c1 t u hm)
      have hu1 : u ∈ c1 := by
        rw [hc1]
        exact List.mem_filter.mpr ⟨huE, decide_eq_true hnt⟩
      have hstored : a.url ∈ (fetchLoop scrape c1 t).map ArticleRow.url :=
        url_mem_fetchLoop_of_ok scrape c1 t u a hu1 hsu hcon
      rw [hau] at hstored
      exact hnot1 (by rw [ht1]; exact hstored)
    | none => trivial
    | err => trivial
  have hfinal : t2 = t1 := by rw [ht2, hmain]
  exact ⟨hfinal, by rw [hfinal]⟩

/-- C5 witness: a url-preserving scrape collaborator on the one-url CSV,
run from the empty table and then again on the resulting table. -/
theorem C5_amended_idempotent_witness :
    ([rowW] : List ArticleRow) = [rowW]
  ∧ ([rowW] : List ArticleRow).length = ([rowW] : List ArticleRow).length :=
  C5_amended_idempotent scrapeW dsA (Column.name "URL") [] ["http://a.com"] [rowW] [] [rowW]
    (fun u a h => by injection h with h2; subst h2; rfl) rfl rfl

/-- C6: the result-collection loop never aborts on a raised scrape
exception: its final table is exactly the fold of insert_article over the
parsed articles of the batch, so every failing url is dropped and every
remaining article is still collected and inserted; concretely, with 1 of
5 submitted urls raising, the other 4 articles are all inserted. -/
theorem C6_partial_failure_containment :
    (∀ (scrape : String → ScrapeResult) (urls : List String) (t : List ArticleRow),
      fetchLoop scrape urls t =
        (okArticles scrape urls).foldl (fun acc a => insert_article a acc) t)
  ∧ fetchLoop scrape5 urls5 [] =
      [row5 "http://u1.com", row5 "http://u2.com", row5 "http://u4.com", row5 "http://u5.com"]
  ∧ (okArticles scrape5 urls5).length = 4 := by
  refine ⟨?_, rfl, rfl⟩
  intro scrape urls t
  induction urls generalizing t with
  | nil => rfl
  | cons u us ih =>
    cases h : scrape u with
    | ok a =>
      rw [okArticles_cons_ok scrape u us a h]
      simp only [fetchLoop, h, List.foldl_cons]
      exact ih _
    | none =>
      rw [okArticles_cons_none scrape u us h]
      simp only [fetchLoop, h]
      exact ih _
    | err =>
      rw [okArticles_cons_err scrape u us h]
      simp only [fetchLoop, h]
      exact ih _

/-- C7: with the column argument omitted and a header present, the url
extraction does not return the values under the first header cell
containing http: on the dataset of the claim it raises TypeError, because
the code scans the first data row instead of the header row, collects all
matching indices into a Python list, and indexes each row with that list. -/
theorem C7_code_eval :
    urls_from_csv [["URL", "Tag"], ["http://a.com", "X"]] Column.none 1 = .error .typeError
  ∧ urls_from_csv [["URL", "Tag"], ["http://a.com", "X"]] Column.none 1 ≠ .ok ["http://a.com"] :=
  ⟨rfl, fun h => Except.noConfusion h⟩

/-- C8: the url extraction with the valid integer column index 0 does not
succeed: Python truthiness of 0 sends the code to the final else, which
raises the can-not-find-any-URLs ValueError, while a valid nonzero index
succeeds and an out-of-range index raises the index-out-of-range
ValueError. -/
theorem C8_code_eval :
    urls_from_csv [["http://a.com"], ["http://b.com"]] (Column.idx 0) 1 =
      .error .valueErrorNoURLs
  ∧ urls_from_csv [["http://a.com"], ["http://b.com"]] (Column.idx 0) 1 ≠ .ok ["http://b.com"]
  ∧ urls_from_csv [["x", "URL"], ["y", "http://b.com"]] (Column.idx 1) 1 = .ok ["http://b.com"]
  ∧ urls_from_csv [["x", "URL"], ["y", "http://b.com"]] (Column.idx 5) 1 =
      .error .valueErrorIndexOutOfRange :=
  ⟨rfl, fun h => Except.noConfusion h, rfl, rfl⟩

/-- C9: inserting a non-sentinel article whose url is already stored does
return without error, but it appends a second row instead of keeping
exactly one row for that url: the Articles schema declares no uniqueness
constraint, so the insert succeeds and the duplicate-warning handler is
unreachable. -/
theorem C9_code_eval :
    insert_article dupArticle [articleRow dupArticle] =
      [articleRow dupArticle, articleRow dupArticle]
  ∧ ((insert_article dupArticle [articleRow dupArticle]).filter
      (fun r => r.url == "http://a.com")).length = 2 :=
  ⟨rfl, rfl⟩

/-- C10: to_csv fails with the invalid-table error, surfaced to the
caller, exactly on a table name that is neither Articles nor Labels, and
otherwise writes the header row of column names followed by one data row
per stored row; on the empty Articles table it writes only the header
row. -/
theorem C10_export_table :
    (∀ (db : DB) (tbl : String), tbl ≠ "Articles" → tbl ≠ "Labels" →
      to_csv db tbl = .error .operationalError)
  ∧ (∀ db : DB,
      to_csv db "Articles" = .ok (articlesHeader :: db.articles.map articleCells)
    ∧ to_csv db "Labels" = .ok (labelsHeader :: db.labels.map labelCells))
  ∧ to_csv ⟨[], []⟩ "Articles" = .ok [articlesHeader] := by
  refine ⟨?_, ?_, rfl⟩
  · intro db tbl h1 h2
    unfold to_csv
    rw [if_neg h1, if_neg h2]
  · intro db
    constructor
    · rfl
    · unfold to_csv
      rw [if_neg (by decide), if_pos rfl]

end Pipeline
